import Mathlib

/-!
Verification of the security core of the mymusicalroom backend.

Each Python module of the backend is shallowly embedded as executable Lean
definitions: byte buffers become lists of naturals, timestamps become
integers (whole seconds), mutable stores become explicit state passing, and
raising an HTTPException becomes returning an error value.  The Python
string primitives used by the source (split, strip, lower, capitalize) are
defined structurally over the character list so that every definition
evaluates inside the kernel.  The external PyJWT library is modelled
symbolically: a token carries its claims and a MAC value, and the MAC
produced by the genuine signer is the pair of the secret and the signed
claims, so a signature verifies exactly when the carried MAC equals the
signer output for the configured secret and the token's own claims.
-/

/-- Decidable equality for Except values, so that witnesses about fallible
operations can be settled by evaluation. -/
instance instDecidableEqExcept {ε α : Type} [DecidableEq ε] [DecidableEq α] :
    DecidableEq (Except ε α)
  | .error e, .error f =>
    if h : e = f then .isTrue (congrArg Except.error h)
    else .isFalse (fun hh => h (Except.error.inj hh))
  | .error _, .ok _ => .isFalse (fun hh => Except.noConfusion hh)
  | .ok _, .error _ => .isFalse (fun hh => Except.noConfusion hh)
  | .ok a, .ok b =>
    if h : a = b then .isTrue (congrArg Except.ok h)
    else .isFalse (fun hh => h (Except.ok.inj hh))

namespace Py

/-! Structural models of the Python string primitives the backend uses.
They operate on the character list of a string, so that they compute by
structural recursion (Python semantics: split on a one-character separator
keeps empty fields; strip removes ASCII whitespace from both ends; lower
and capitalize act on ASCII letters). -/

/-- ASCII whitespace stripped by str.strip(). -/
def isSpace (c : Char) : Bool :=
  c == ' ' || c == '\t' || c == '\n' || c == '\r' || c == '\x0b' || c == '\x0c'

/-- Lowercase one ASCII letter, as str.lower() does per character. -/
def lowerChar (c : Char) : Char :=
  if 'A' ≤ c && c ≤ 'Z' then Char.ofNat (c.toNat + 32) else c

/-- Uppercase one ASCII letter. -/
def upperChar (c : Char) : Char :=
  if 'a' ≤ c && c ≤ 'z' then Char.ofNat (c.toNat - 32) else c

/-- Python s.split(sep) for a one-character separator: split at every
occurrence, keeping empty fields; the result is never empty. -/
def split (sep : Char) : List Char → List (List Char)
  | [] => [[]]
  | c :: cs =>
    let r := split sep cs
    if c == sep then [] :: r
    else
      match r with
      | [] => [[c]]
      | g :: gs => (c :: g) :: gs

/-- Python s.split(sep, 1) when sep occurs: the field before the first
occurrence and everything after it.  none when sep does not occur, which is
also the "sep in s" test. -/
def splitFirst (sep : Char) : List Char → Option (List Char × List Char)
  | [] => none
  | c :: cs =>
    if c == sep then some ([], cs)
    else
      match splitFirst sep cs with
      | none => none
      | some (a, b) => some (c :: a, b)

/-- Python s.strip(). -/
def strip (l : List Char) : List Char :=
  ((l.dropWhile isSpace).reverse.dropWhile isSpace).reverse

/-- Python s.lower() on a string (ASCII). -/
def lower (s : String) : String :=
  String.mk (s.toList.map lowerChar)

/-- Python s.capitalize(): first character uppercased, the rest
lowercased. -/
def capitalize (l : List Char) : List Char :=
  match l with
  | [] => []
  | c :: cs => upperChar c :: cs.map lowerChar

end Py

namespace FileValidation

/-! Embedding of backend/app/file_validation.py.  A byte buffer is a list of
naturals (each entry one byte); the signature table, the magic-byte scan and
the size check follow the source line by line. -/

/-- File size limits (in bytes), from file_validation.py. -/
def MAX_FILE_SIZE : Nat := 100 * 1024 * 1024

/-- Maximum video size: 500 MB. -/
def MAX_VIDEO_SIZE : Nat := 500 * 1024 * 1024

/-- Maximum photo size: 50 MB. -/
def MAX_PHOTO_SIZE : Nat := 50 * 1024 * 1024

/-- Maximum document size: 50 MB. -/
def MAX_DOCUMENT_SIZE : Nat := 50 * 1024 * 1024

/-- One row of the FILE_SIGNATURES table:
(signature_bytes, offset, mime_type, extension, file_type). -/
structure FileSignature where
  signature : List Nat
  offset : Nat
  mime_type : String
  extension : String
  file_type : String
deriving DecidableEq

/-- The static signature table of file_validation.py, byte for byte. -/
def FILE_SIGNATURES : List FileSignature := [
  -- Images
  ⟨[0xff, 0xd8, 0xff], 0, "image/jpeg", ".jpg", "photo"⟩,
  ⟨[0x89, 0x50, 0x4e, 0x47, 0x0d, 0x0a, 0x1a, 0x0a], 0, "image/png", ".png", "photo"⟩,
  ⟨[0x47, 0x49, 0x46, 0x38, 0x37, 0x61], 0, "image/gif", ".gif", "photo"⟩,  -- GIF87a
  ⟨[0x47, 0x49, 0x46, 0x38, 0x39, 0x61], 0, "image/gif", ".gif", "photo"⟩,  -- GIF89a
  ⟨[0x52, 0x49, 0x46, 0x46], 0, "image/webp", ".webp", "photo"⟩,            -- RIFF
  ⟨[0x42, 0x4d], 0, "image/bmp", ".bmp", "photo"⟩,                          -- BM
  ⟨[0x49, 0x49, 0x2a, 0x00], 0, "image/tiff", ".tiff", "photo"⟩,
  ⟨[0x4d, 0x4d, 0x00, 0x2a], 0, "image/tiff", ".tiff", "photo"⟩,
  -- Videos
  ⟨[0x00, 0x00, 0x00, 0x20, 0x66, 0x74, 0x79, 0x70], 4, "video/mp4", ".mp4", "video"⟩,
  ⟨[0x00, 0x00, 0x00, 0x18, 0x66, 0x74, 0x79, 0x70], 4, "video/mp4", ".mp4", "video"⟩,
  ⟨[0x52, 0x49, 0x46, 0x46], 0, "video/avi", ".avi", "video"⟩,              -- RIFF
  ⟨[0x52, 0x49, 0x46, 0x46], 0, "video/webm", ".webm", "video"⟩,            -- RIFF
  ⟨[0x00, 0x00, 0x00, 0x20, 0x66, 0x74, 0x79, 0x70, 0x71, 0x74, 0x20, 0x20], 4,
    "video/quicktime", ".mov", "video"⟩,
  -- Documents
  ⟨[0x25, 0x50, 0x44, 0x46], 0, "application/pdf", ".pdf", "document"⟩,     -- %PDF
  ⟨[0xd0, 0xcf, 0x11, 0xe0, 0xa1, 0xb1, 0x1a, 0xe1], 0, "application/msword", ".doc", "document"⟩,
  ⟨[0x50, 0x4b, 0x03, 0x04], 0,
    "application/vnd.openxmlformats-officedocument.wordprocessingml.document", ".docx",
    "document"⟩                                                             -- PK..
]

/-- Bytes of the RIFF signature. -/
def RIFF_SIG : List Nat := [0x52, 0x49, 0x46, 0x46]

/-- Bytes of the ZIP (PK) signature. -/
def PK_SIG : List Nat := [0x50, 0x4b, 0x03, 0x04]

/-- Bytes of the AVI marker (ASCII "AVI "). -/
def AVI_MARK : List Nat := [0x41, 0x56, 0x49, 0x20]

/-- Bytes of the WEBM marker. -/
def WEBM_MARK : List Nat := [0x57, 0x45, 0x42, 0x4d]

/-- Bytes of the WEBP marker. -/
def WEBP_MARK : List Nat := [0x57, 0x45, 0x42, 0x50]

/-- Bytes of "word/", the DOCX directory marker. -/
def WORD_MARK : List Nat := [0x77, 0x6f, 0x72, 0x64, 0x2f]

/-- Bytes of "[Content_Types].xml", the other DOCX marker. -/
def CONTENT_TYPES_MARK : List Nat :=
  [0x5b, 0x43, 0x6f, 0x6e, 0x74, 0x65, 0x6e, 0x74, 0x5f, 0x54, 0x79, 0x70, 0x65,
   0x73, 0x5d, 0x2e, 0x78, 0x6d, 0x6c]

/-- The guarded slice comparison of the scan loop: the source requires
len(file_content) > offset + len(signature) and then compares
file_content[offset : offset + len(signature)] with the signature. -/
def matches_sig (content : List Nat) (sig : List Nat) (off : Nat) : Bool :=
  decide (off + sig.length < content.length) &&
    ((content.drop off).take sig.length == sig)

/-- The slice file_content[8:12] used by the RIFF disambiguation. -/
def riff_slice (content : List Nat) : List Nat :=
  (content.drop 8).take 4

/-- The for-loop over the signature table in validate_file_magic_bytes,
including the RIFF and ZIP special cases.  Falling through a special case
without returning continues with the remaining table entries, exactly as the
Python loop does. -/
def magic_go (content : List Nat) (expected : Option String) :
    List FileSignature → Option (String × String × String)
  | [] => none
  | s :: rest =>
    if (match expected with
        | some t => s.file_type != t
        | none => false) then
      magic_go content expected rest
    else if matches_sig content s.signature s.offset then
      if s.signature == RIFF_SIG then
        if decide (AVI_MARK <:+: riff_slice content) then
          some ("video/avi", ".avi", "video")
        else if decide (WEBM_MARK <:+: riff_slice content) then
          some ("video/webm", ".webm", "video")
        else if decide (WEBP_MARK <:+: riff_slice content) then
          some ("image/webp", ".webp", "photo")
        else magic_go content expected rest
      else if s.signature == PK_SIG then
        if decide (WORD_MARK <:+: content.take 1024) ||
            decide (CONTENT_TYPES_MARK <:+: content.take 1024) then
          some ("application/vnd.openxmlformats-officedocument.wordprocessingml.document",
                ".docx", "document")
        else magic_go content expected rest
      else some (s.mime_type, s.extension, s.file_type)
    else magic_go content expected rest

/-- Embedding of validate_file_magic_bytes.  The Python function returns the
tuple (False, None, None, None) on failure and (True, mime, ext, type) on
success; here failure is none and success is some (mime, ext, type). -/
def validate_file_magic_bytes (content : List Nat) (expected : Option String) :
    Option (String × String × String) :=
  if content.isEmpty ∨ content.length < 12 then none
  else magic_go content expected FILE_SIGNATURES

/-- Embedding of validate_file_size.  The source computes the size as
len(file_content); the model takes that byte count directly.  Raising
ValueError becomes returning an error string (messages abbreviated, the
source interpolates the sizes into them). -/
def validate_file_size (file_size : Nat) (file_type : String) : Except String Unit :=
  let max_size :=
    if file_type == "video" then MAX_VIDEO_SIZE
    else if file_type == "photo" then MAX_PHOTO_SIZE
    else if file_type == "document" then MAX_DOCUMENT_SIZE
    else MAX_FILE_SIZE
  if file_size > max_size then
    .error "File size exceeds maximum allowed size."
  else if file_size = 0 then
    .error "File is empty."
  else .ok ()

/-- The three results the RIFF disambiguation can produce. -/
def RIFF_RESULTS : List (String × String × String) :=
  [("video/avi", ".avi", "video"),
   ("video/webm", ".webm", "video"),
   ("image/webp", ".webp", "photo")]

end FileValidation

namespace Validators

/-! Embedding of sanitize_filename from backend/app/validators.py. -/

/-- The character class kept by the regex substitution that removes every
character outside a-z, A-Z, 0-9, dot, underscore and hyphen. -/
def allowed_char (c : Char) : Bool :=
  (('a' ≤ c && c ≤ 'z') || ('A' ≤ c && c ≤ 'Z') || ('0' ≤ c && c ≤ '9')
    || c == '.' || c == '_' || c == '-')

/-- The double split of the source: keep only the part after the last slash
and, within it, after the last backslash. -/
def final_segment (f : String) : List Char :=
  (Py.split '\\' ((Py.split '/' f.toList).getLastD [])).getLastD []

/-- The length cap of the source: truncate to 255 characters when longer.
Python slices strings by code point, which matches truncating the character
list. -/
def truncate255 (l : List Char) : List Char :=
  if 255 < l.length then l.take 255 else l

/-- Embedding of sanitize_filename: a falsy (absent or empty) input yields
None; otherwise keep the final path segment (split on both separators),
drop every character outside the allowed class, and truncate to 255
characters. -/
def sanitize_filename (filename : Option String) : Option String :=
  match filename with
  | none => none
  | some f =>
    if f = "" then none
    else some (String.mk (truncate255 ((final_segment f).filter allowed_char)))

end Validators

namespace RateLimit

/-! Embedding of backend/app/rate_limit.py.  The module-level store maps an
IP to a list of (timestamp, endpoint) pairs; all claims concern a single IP,
so the state is that one list, threaded explicitly.  Timestamps (Python
floats from time.time()) are modelled as integer seconds. -/

/-- One stored request: (timestamp, endpoint). -/
abbrev Entry := Int × String

/-- The 60-second window. -/
def RATE_LIMIT_WINDOW : Int := 60

/-- At most 5 requests per window per IP and endpoint. -/
def RATE_LIMIT_MAX_REQUESTS : Nat := 5

/-- Embedding of cleanup_old_entries: keep entries with
timestamp strictly above current_time - RATE_LIMIT_WINDOW. -/
def cleanup_old_entries (current : Int) (store : List Entry) : List Entry :=
  store.filter (fun e => decide (current - RATE_LIMIT_WINDOW < e.1))

/-- Embedding of check_rate_limit for one IP: purge old entries, count the
remaining entries for this endpoint inside the window, reject when the count
reached the maximum, otherwise record the current timestamp.  Returns the
allow decision and the updated store. -/
def check_rate_limit (current : Int) (endpoint : String) (store : List Entry) :
    Bool × List Entry :=
  let cleaned := cleanup_old_entries current store
  let endpoint_requests := cleaned.filter
      (fun e => e.2 == endpoint && decide (current - RATE_LIMIT_WINDOW < e.1))
  if RATE_LIMIT_MAX_REQUESTS ≤ endpoint_requests.length then (false, cleaned)
  else (true, cleaned ++ [(current, endpoint)])

/-- Run a sequence of checks for one IP and one endpoint at the given times,
threading the store; collects the allow decisions in order. -/
def run_rate_limit (endpoint : String) : List Int → List Entry → List Bool × List Entry
  | [], store => ([], store)
  | t :: ts, store =>
    let r := check_rate_limit t endpoint store
    let rest := run_rate_limit endpoint ts r.2
    (r.1 :: rest.1, rest.2)

/-- Embedding of the FastAPI dependency built by rate_limit_dependency: run
the check and raise HTTP 429 (with the retry-after message) when it is not
allowed. -/
def rate_limit_dependency_step (current : Int) (endpoint : String) (store : List Entry) :
    Except (Nat × String) Bool × List Entry :=
  let r := check_rate_limit current endpoint store
  if r.1 = false then
    (.error (429, "Too many requests. Please try again in 60 seconds."), r.2)
  else (.ok true, r.2)

end RateLimit

namespace App

/-! Embedding of backend/app/auth.py and backend/app/csrf.py.  The PyJWT
library is external to the repository; it is modelled symbolically: a MAC
value is the pair of the signing secret and the signed claims (an injective
signer), and a token carries claims plus the MAC presented for them, so a
signature verifies exactly when that MAC is the signer output for the
configured secret and the token's claims. -/

/-- The JWT claims relevant to this backend; exp is epoch seconds. -/
structure Claims where
  sub : Option String
  email : Option String
  aud : String
  exp : Int
deriving DecidableEq

/-- A symbolic MAC value: the output space of the signer. -/
structure Mac where
  key : String
  payload : Claims
deriving DecidableEq

/-- The symbolic HMAC-SHA256 signer: injective in secret and claims by
construction. -/
def hmac_sign (secret : String) (c : Claims) : Mac := ⟨secret, c⟩

/-- A presented token: claims plus the MAC it carries. -/
structure Token where
  claims : Claims
  mac : Mac
deriving DecidableEq

/-- The configured SUPABASE_JWT_SECRET (config.py reads it from the
environment; its concrete value is irrelevant, only its identity). -/
def SUPABASE_JWT_SECRET : String := "supabase-jwt-secret"

/-- Errors raised by the modelled jwt.decode.  ExpiredSignatureError is kept
separate because auth.py catches it before InvalidTokenError; audience and
signature failures are both InvalidTokenError subclasses there. -/
inductive JwtError where
  | expiredSignature
  | invalidToken
deriving DecidableEq

/-- Model of jwt.decode(token, secret, algorithms=[HS256],
audience=authenticated): signature first, then expiry, then audience. -/
def jwt_decode (secret : String) (tok : Token) (audience : String) (now : Int) :
    Except JwtError Claims :=
  if tok.mac ≠ hmac_sign secret tok.claims then .error .invalidToken
  else if tok.claims.exp ≤ now then .error .expiredSignature
  else if tok.claims.aud ≠ audience then .error .invalidToken
  else .ok tok.claims

/-- Python truthiness of an optional string: None and the empty string are
falsy. -/
def pyTruthy : Option String → Bool
  | none => false
  | some s => !(s == "")

/-- The request fields the auth and CSRF code reads.  The Authorization
header value is modelled as its scheme word plus the credential it carries
(the source lowercases the header, checks that it starts with the bearer
scheme followed by a space, and splits on the first space). -/
structure Request where
  method : String
  path : String
  headerAuth : Option (String × Token)
  headerCsrf : Option String
  cookieSbAccessToken : Option Token
deriving DecidableEq

/-- Embedding of _get_token_from_request: prefer a bearer Authorization
header, fall back to the sb-access-token cookie. -/
def _get_token_from_request (r : Request) : Option Token :=
  match r.headerAuth with
  | some (scheme, tok) =>
    if Py.lower scheme == "bearer" then some tok
    else r.cookieSbAccessToken
  | none => r.cookieSbAccessToken

/-- The resolved identity returned by get_current_user. -/
structure Identity where
  id : String
  email : String
deriving DecidableEq

/-- An HTTPException: status code and detail. -/
structure HttpError where
  status : Nat
  detail : String
deriving DecidableEq

/-- Embedding of get_current_user: extract the token, verify it with the
Supabase secret and audience authenticated, require a truthy sub claim, and
return the identity; every failure raises 401. -/
def get_current_user (r : Request) (now : Int) : Except HttpError Identity :=
  match _get_token_from_request r with
  | none => .error ⟨401, "Not authenticated"⟩
  | some tok =>
    match jwt_decode SUPABASE_JWT_SECRET tok "authenticated" now with
    | .error .expiredSignature => .error ⟨401, "Token expired"⟩
    | .error .invalidToken => .error ⟨401, "Invalid token"⟩
    | .ok decoded =>
      match decoded.sub with
      | none => .error ⟨401, "Invalid token"⟩
      | some uid =>
        if uid = "" then .error ⟨401, "Invalid token"⟩
        else .ok ⟨uid, decoded.email.getD ""⟩

/-- The state-changing methods protected by the CSRF middleware. -/
def CSRF_PROTECTED_METHODS : List String := ["POST", "PUT", "PATCH", "DELETE"]

/-- The public endpoints exempt from CSRF protection. -/
def PUBLIC_ENDPOINTS : List String := ["/api/auth/register", "/api/auth/login"]

/-- Embedding of get_csrf_token_from_request. -/
def get_csrf_token_from_request (r : Request) : Option String :=
  r.headerCsrf

/-- Embedding of validate_csrf_token: a truthy X-CSRF-Token value plus a
bearer Authorization header whose token decodes (valid signature, audience
authenticated, unexpired — jwt.InvalidTokenError covers all decode
failures). -/
def validate_csrf_token (r : Request) (token : Option String) (now : Int) : Bool :=
  if !pyTruthy token then false
  else
    match r.headerAuth with
    | none => false
    | some (scheme, tok) =>
      if !(Py.lower scheme == "bearer") then false
      else (jwt_decode SUPABASE_JWT_SECRET tok "authenticated" now).toBool

/-- Embedding of CSRFProtectionMiddleware.dispatch.  Returning ok () means
the request is forwarded to the handler; the 403 HTTPException is the error
case.  Safe methods, public endpoints, and requests without a bearer
Authorization header all pass through. -/
def csrf_dispatch (r : Request) (now : Int) : Except HttpError Unit :=
  if r.method ∉ CSRF_PROTECTED_METHODS then .ok ()
  else if r.path ∈ PUBLIC_ENDPOINTS then .ok ()
  else
    match r.headerAuth with
    | some (scheme, _) =>
      if Py.lower scheme == "bearer" then
        if !validate_csrf_token r (get_csrf_token_from_request r) now then
          .error ⟨403, "CSRF token missing or invalid"⟩
        else .ok ()
      else .ok ()
    | none => .ok ()

end App

namespace CookieSecurity

/-! Embedding of SecureCookieMiddleware.dispatch from
backend/app/cookie_security.py, as the per-header rewrite it performs: the
middleware collects all Set-Cookie headers, removes them, and re-emits one
rewritten header per original cookie in order. -/

/-- An attribute value: some v for attr=val, none for a bare flag (the
source stores True). -/
abbrev AttrVal := Option String

/-- Assignment into the attrs dict: an existing key keeps its position and
gets the new value, a new key is appended. -/
def set_attr (attrs : List (String × AttrVal)) (k : String) (v : AttrVal) :
    List (String × AttrVal) :=
  if attrs.any (fun p => p.1 == k) then
    attrs.map (fun p => if p.1 == k then (p.1, v) else p)
  else attrs ++ [(k, v)]

/-- The attribute-parsing loop: strip each part; a part containing an equals
sign becomes key (stripped, lowercased) with value (everything after the
first equals sign, stripped), any other part becomes a lowercased bare
flag. -/
def parse_attrs (parts : List (List Char)) : List (String × AttrVal) :=
  parts.foldl (fun attrs part =>
    let p := Py.strip part
    match Py.splitFirst '=' p with
    | some (k, v) =>
      set_attr attrs (String.mk ((Py.strip k).map Py.lowerChar))
        (some (String.mk (Py.strip v)))
    | none => set_attr attrs (String.mk (p.map Py.lowerChar)) none) []

/-- Rewrite of one Set-Cookie header value.  Result none models the loop
skipping the cookie via continue (empty name=value part); otherwise the
secure cookie string is rebuilt exactly as in the source: name=value, then
HttpOnly if that key is absent, Secure if in production mode and that key is
absent, SameSite=Lax if that key is absent, then every attribute other than
those three re-serialized with a capitalized key. -/
def build_secure_cookie (is_production : Bool) (cookie : String) : Option String :=
  match Py.split ';' cookie.toList with
  | [] => none
  | first :: restParts =>
    let name_value := Py.strip first
    if name_value.isEmpty then none
    else
      let attrs := parse_attrs restParts
      let s1 := String.mk name_value
      let s2 := if !(attrs.any (fun p => p.1 == "httponly")) then s1 ++ "; HttpOnly" else s1
      let s3 := if is_production && !(attrs.any (fun p => p.1 == "secure")) then
          s2 ++ "; Secure" else s2
      let s4 := if !(attrs.any (fun p => p.1 == "samesite")) then
          s3 ++ "; SameSite=Lax" else s3
      let s5 := attrs.foldl (fun acc p =>
          if p.1 == "httponly" || p.1 == "secure" || p.1 == "samesite" then acc
          else
            match p.2 with
            | none => acc ++ "; " ++ String.mk (Py.capitalize p.1.toList)
            | some v => acc ++ "; " ++ String.mk (Py.capitalize p.1.toList) ++ "=" ++ v) s4
      some s5

/-- The whole response transform: one rewritten Set-Cookie header per
original cookie, in the original order. -/
def secure_cookie_headers (is_production : Bool) (cookies : List String) : List String :=
  cookies.filterMap (build_secure_cookie is_production)

end CookieSecurity

namespace SecurityLogging

/-! Embedding of log_security_event from backend/app/security_logging.py.
The wall-clock timestamp (datetime.utcnow) is an explicit input; emitting
the JSON line to the logger is modelled as returning the structured record
together with the logger channel chosen from the level. -/

/-- The client information block built by get_client_info. -/
structure ClientInfo where
  ip : String
  user_agent : String
  method : String
  path : String
  referer : Option String
deriving DecidableEq

/-- The detail keys treated as sensitive. -/
def SENSITIVE_KEYS : List String := ["password", "token", "secret", "key", "credential"]

/-- The redaction loop: a detail entry whose lowercased key is sensitive has
its value replaced by the fixed placeholder, every other entry is kept.
Python dict keys are unique, so the dict is an association list. -/
def sanitize_details (details : List (String × String)) : List (String × String) :=
  details.map (fun kv =>
    if Py.lower kv.1 ∈ SENSITIVE_KEYS then (kv.1, "[REDACTED]") else kv)

/-- The structured record serialized by json.dumps. -/
structure LogRecord where
  event_type : String
  timestamp : String
  client : ClientInfo
  user_identifier : Option String
  details : Option (List (String × String))
deriving DecidableEq

/-- Embedding of log_security_event: build the record, attach sanitized
details when the details dict is truthy (non-empty), and choose the logger
channel from the level string.  The emitted line is a deterministic
serialization of the returned record. -/
def log_security_event (event_type : String) (client : ClientInfo) (timestamp : String)
    (level : String) (details : Option (List (String × String)))
    (user_identifier : Option String) : LogRecord × String :=
  let base : LogRecord := ⟨event_type, timestamp, client, user_identifier, none⟩
  let record := match details with
    | some d => if d.isEmpty then base else { base with details := some (sanitize_details d) }
    | none => base
  let channel := if level == "ERROR" then "ERROR"
    else if level == "WARNING" then "WARNING" else "INFO"
  (record, channel)

end SecurityLogging

/-! Theorems.  Helper lemmas come first inside each namespace, then one
theorem per claim (with a witness or counterexample where required). -/

namespace FileValidation

/-- A table entry cannot fire when its slice comparison fails. -/
theorem matches_sig_eq_false_of_slice (content sig : List Nat) (off : Nat)
    (h : ((content.drop off).take sig.length == sig) = false) :
    matches_sig content sig off = false := by
  simp [matches_sig, h]

/-- A table entry fires when the buffer is long enough and the slice equals
the signature. -/
theorem matches_sig_eq_true_of (content sig : List Nat) (off : Nat)
    (h1 : off + sig.length < content.length)
    (h2 : (content.drop off).take sig.length = sig) :
    matches_sig content sig off = true := by
  simp [matches_sig, h1, h2]

/-- The scan loop returns none when no candidate table entry fires (the
premise constrains exactly the rows the loop considers: all of them when no
category is requested, the rows of that category otherwise). -/
theorem magic_go_eq_none_of_no_match (content : List Nat) (expected : Option String)
    (l : List FileSignature)
    (h : ∀ s ∈ l, (∀ t, expected = some t → s.file_type = t) →
        matches_sig content s.signature s.offset = false) :
    magic_go content expected l = none := by
  induction l with
  | nil => simp [magic_go]
  | cons s rest ih =>
    have h1 := h s (List.mem_cons_self s rest)
    have h2 : ∀ x ∈ rest, (∀ t, expected = some t → x.file_type = t) →
        matches_sig content x.signature x.offset = false :=
      fun x hx => h x (List.mem_cons_of_mem s hx)
    cases expected with
    | none =>
      have hm : matches_sig content s.signature s.offset = false :=
        h1 (fun t ht => Option.noConfusion ht)
      simp [magic_go, hm, ih h2]
    | some t =>
      by_cases hft : s.file_type = t
      · have hm : matches_sig content s.signature s.offset = false :=
          h1 (fun t2 ht2 => by cases ht2; exact hft)
        simp [magic_go, hft, hm, ih h2]
      · simp [magic_go, hft, ih h2]

/-- When a category is requested, a successful scan either reports that
category or went through one of the RIFF container redirects.  The side
condition that every PK row of the table is a document row holds for the
concrete table. -/
theorem magic_go_some_category (content : List Nat) (t : String)
    (l : List FileSignature)
    (hPK : ∀ s ∈ l, s.signature = PK_SIG → s.file_type = "document") :
    ∀ m e c, magic_go content (some t) l = some (m, e, c) →
      c = t ∨ (m, e, c) ∈ RIFF_RESULTS := by
  induction l with
  | nil => intro m e c h; simp [magic_go] at h
  | cons s rest ih =>
    intro m e c h
    have hPKr : ∀ x ∈ rest, x.signature = PK_SIG → x.file_type = "document" :=
      fun x hx => hPK x (List.mem_cons_of_mem s hx)
    simp only [magic_go] at h
    split at h
    · exact ih hPKr m e c h
    · next hskip =>
      have hft : s.file_type = t := by simpa using hskip
      split at h
      · split at h
        · -- RIFF row: the three marker redirects
          split at h
          · right; rw [← Option.some.inj h]; decide
          · split at h
            · right; rw [← Option.some.inj h]; decide
            · split at h
              · right; rw [← Option.some.inj h]; decide
              · exact ih hPKr m e c h
        · split at h
          · next hpk =>
            split at h
            · left
              have hdoc : s.file_type = "document" :=
                hPK s (List.mem_cons_self s rest) (by simpa using hpk)
              have h6 : "document" = c :=
                congrArg (fun p => p.2.2) (Option.some.inj h)
              rw [← h6, ← hdoc]; exact hft
            · exact ih hPKr m e c h
          · left
            have h6 : s.file_type = c :=
              congrArg (fun p => p.2.2) (Option.some.inj h)
            rw [← h6]; exact hft
      · exact ih hPKr m e c h

end FileValidation

namespace FileValidation

/-- C3 counterexample: with expected_category photo, a RIFF buffer whose
bytes 8 to 12 are the AVI marker is classified successfully as category
video, not photo — the RIFF disambiguation overrides the requested
category. -/
theorem magic_expected_category_counterexample :
    validate_file_magic_bytes (RIFF_SIG ++ [0x57, 0x41, 0x56, 0x45] ++ AVI_MARK)
      (some "photo") = some ("video/avi", ".avi", "video") := by
  decide

/-- C3 (amended): with an expected_category only rows of that category can
trigger a match, so a successful classification reports that category
unless it went through the RIFF container disambiguation, which may return
any of its three results regardless of the expected category; and when no
row of the expected category fires on the buffer, classification fails. -/
theorem validate_magic_expected_category (content : List Nat) (t : String) :
    (∀ m e c, validate_file_magic_bytes content (some t) = some (m, e, c) →
      c = t ∨ (m, e, c) ∈ RIFF_RESULTS) ∧
    ((∀ s ∈ FILE_SIGNATURES, s.file_type = t →
        matches_sig content s.signature s.offset = false) →
      validate_file_magic_bytes content (some t) = none) := by
  constructor
  · intro m e c h
    unfold validate_file_magic_bytes at h
    split at h
    · exact absurd h (by simp)
    · exact magic_go_some_category content t FILE_SIGNATURES (by decide) m e c h
  · intro hno
    unfold validate_file_magic_bytes
    split
    · rfl
    · exact magic_go_eq_none_of_no_match content (some t) FILE_SIGNATURES
        (fun s hs himp => hno s hs (himp t rfl))

/-- Closed instance of the amended C3 theorem. -/
theorem validate_magic_expected_category_witness :
    ("video" = "photo" ∨ ("video/avi", ".avi", "video") ∈ RIFF_RESULTS) ∧
    validate_file_magic_bytes [1, 2, 3, 4, 5, 6, 7, 8, 9, 10, 11, 12, 13]
      (some "photo") = none :=
  ⟨(validate_magic_expected_category
      (RIFF_SIG ++ [0x57, 0x41, 0x56, 0x45] ++ AVI_MARK) "photo").1
      "video/avi" ".avi" "video" (by decide),
   (validate_magic_expected_category [1, 2, 3, 4, 5, 6, 7, 8, 9, 10, 11, 12, 13] "photo").2
      (by decide)⟩

/-- One scan step over a non-firing row (no requested category). -/
theorem magic_go_cons_none_no_match (content sig : List Nat) (off : Nat)
    (mime ext ftype : String) (rest : List FileSignature)
    (hm : matches_sig content sig off = false) :
    magic_go content none (⟨sig, off, mime, ext, ftype⟩ :: rest) =
      magic_go content none rest := by
  simp [magic_go, hm]

/-- One scan step over a firing RIFF row with the AVI marker present. -/
theorem magic_go_cons_none_riff_avi (content sig : List Nat) (off : Nat)
    (mime ext ftype : String) (rest : List FileSignature)
    (hm : matches_sig content sig off = true)
    (hsig : sig = RIFF_SIG)
    (hA : AVI_MARK <:+: riff_slice content) :
    magic_go content none (⟨sig, off, mime, ext, ftype⟩ :: rest) =
      some ("video/avi", ".avi", "video") := by
  subst hsig; simp [magic_go, hm, hA]

/-- One scan step over a firing RIFF row with the WEBM marker present. -/
theorem magic_go_cons_none_riff_webm (content sig : List Nat) (off : Nat)
    (mime ext ftype : String) (rest : List FileSignature)
    (hm : matches_sig content sig off = true)
    (hsig : sig = RIFF_SIG)
    (hnA : ¬ (AVI_MARK <:+: riff_slice content))
    (hW : WEBM_MARK <:+: riff_slice content) :
    magic_go content none (⟨sig, off, mime, ext, ftype⟩ :: rest) =
      some ("video/webm", ".webm", "video") := by
  subst hsig; simp [magic_go, hm, hnA, hW]

/-- One scan step over a firing RIFF row with the WEBP marker present. -/
theorem magic_go_cons_none_riff_webp (content sig : List Nat) (off : Nat)
    (mime ext ftype : String) (rest : List FileSignature)
    (hm : matches_sig content sig off = true)
    (hsig : sig = RIFF_SIG)
    (hnA : ¬ (AVI_MARK <:+: riff_slice content))
    (hnW : ¬ (WEBM_MARK <:+: riff_slice content))
    (hP : WEBP_MARK <:+: riff_slice content) :
    magic_go content none (⟨sig, off, mime, ext, ftype⟩ :: rest) =
      some ("image/webp", ".webp", "photo") := by
  subst hsig; simp [magic_go, hm, hnA, hnW, hP]

theorem riff_firstlen (a b c d : Nat) (m1 m2 m3 m4 : Nat) (tail : List Nat) :
    0 + [0x52, 0x49, 0x46, 0x46].length <
      (RIFF_SIG ++ [a, b, c, d] ++ [m1, m2, m3, m4] ++ tail).length := by
  simp only [List.length_append, RIFF_SIG, List.length_cons, List.length_nil]
  omega

theorem riff_case_avi (a b c d : Nat) (tail : List Nat) :
    validate_file_magic_bytes (RIFF_SIG ++ [a, b, c, d] ++ AVI_MARK ++ tail) none =
      some ("video/avi", ".avi", "video") := by
  have m1 : matches_sig (RIFF_SIG ++ [a, b, c, d] ++ AVI_MARK ++ tail)
      [0xff, 0xd8, 0xff] 0 = false :=
    matches_sig_eq_false_of_slice _ _ _ rfl
  have m2 : matches_sig (RIFF_SIG ++ [a, b, c, d] ++ AVI_MARK ++ tail)
      [0x89, 0x50, 0x4e, 0x47, 0x0d, 0x0a, 0x1a, 0x0a] 0 = false :=
    matches_sig_eq_false_of_slice _ _ _ rfl
  have m3 : matches_sig (RIFF_SIG ++ [a, b, c, d] ++ AVI_MARK ++ tail)
      [0x47, 0x49, 0x46, 0x38, 0x37, 0x61] 0 = false :=
    matches_sig_eq_false_of_slice _ _ _ rfl
  have m4 : matches_sig (RIFF_SIG ++ [a, b, c, d] ++ AVI_MARK ++ tail)
      [0x47, 0x49, 0x46, 0x38, 0x39, 0x61] 0 = false :=
    matches_sig_eq_false_of_slice _ _ _ rfl
  have m5 : matches_sig (RIFF_SIG ++ [a, b, c, d] ++ AVI_MARK ++ tail)
      [0x52, 0x49, 0x46, 0x46] 0 = true :=
    matches_sig_eq_true_of _ _ _ (riff_firstlen a b c d 0x41 0x56 0x49 0x20 tail) rfl
  unfold validate_file_magic_bytes
  rw [if_neg ?hc]
  case hc =>
    rintro (he | hl)
    · have hf : (RIFF_SIG ++ [a, b, c, d] ++ AVI_MARK ++ tail).isEmpty = false := rfl
      rw [hf] at he; cases he
    · have h12 := riff_firstlen a b c d 0x41 0x56 0x49 0x20 tail
      simp only [List.length_append, RIFF_SIG, AVI_MARK, List.length_cons,
        List.length_nil] at hl h12
      omega
  unfold FILE_SIGNATURES
  rw [magic_go_cons_none_no_match _ _ _ _ _ _ _ m1,
    magic_go_cons_none_no_match _ _ _ _ _ _ _ m2,
    magic_go_cons_none_no_match _ _ _ _ _ _ _ m3,
    magic_go_cons_none_no_match _ _ _ _ _ _ _ m4,
    magic_go_cons_none_riff_avi _ _ _ _ _ _ _ m5 rfl ⟨[], [], rfl⟩]

theorem riff_case_webm (a b c d : Nat) (tail : List Nat) :
    validate_file_magic_bytes (RIFF_SIG ++ [a, b, c, d] ++ WEBM_MARK ++ tail) none =
      some ("video/webm", ".webm", "video") := by
  have m1 : matches_sig (RIFF_SIG ++ [a, b, c, d] ++ WEBM_MARK ++ tail)
      [0xff, 0xd8, 0xff] 0 = false :=
    matches_sig_eq_false_of_slice _ _ _ rfl
  have m2 : matches_sig (RIFF_SIG ++ [a, b, c, d] ++ WEBM_MARK ++ tail)
      [0x89, 0x50, 0x4e, 0x47, 0x0d, 0x0a, 0x1a, 0x0a] 0 = false :=
    matches_sig_eq_false_of_slice _ _ _ rfl
  have m3 : matches_sig (RIFF_SIG ++ [a, b, c, d] ++ WEBM_MARK ++ tail)
      [0x47, 0x49, 0x46, 0x38, 0x37, 0x61] 0 = false :=
    matches_sig_eq_false_of_slice _ _ _ rfl
  have m4 : matches_sig (RIFF_SIG ++ [a, b, c, d] ++ WEBM_MARK ++ tail)
      [0x47, 0x49, 0x46, 0x38, 0x39, 0x61] 0 = false :=
    matches_sig_eq_false_of_slice _ _ _ rfl
  have m5 : matches_sig (RIFF_SIG ++ [a, b, c, d] ++ WEBM_MARK ++ tail)
      [0x52, 0x49, 0x46, 0x46] 0 = true :=
    matches_sig_eq_true_of _ _ _ (riff_firstlen a b c d 0x57 0x45 0x42 0x4d tail) rfl
  unfold validate_file_magic_bytes
  rw [if_neg ?hc]
  case hc =>
    rintro (he | hl)
    · have hf : (RIFF_SIG ++ [a, b, c, d] ++ WEBM_MARK ++ tail).isEmpty = false := rfl
      rw [hf] at he; cases he
    · have h12 := riff_firstlen a b c d 0x57 0x45 0x42 0x4d tail
      simp only [List.length_append, RIFF_SIG, WEBM_MARK, List.length_cons,
        List.length_nil] at hl h12
      omega
  unfold FILE_SIGNATURES
  rw [magic_go_cons_none_no_match _ _ _ _ _ _ _ m1,
    magic_go_cons_none_no_match _ _ _ _ _ _ _ m2,
    magic_go_cons_none_no_match _ _ _ _ _ _ _ m3,
    magic_go_cons_none_no_match _ _ _ _ _ _ _ m4,
    magic_go_cons_none_riff_webm _ _ _ _ _ _ _ m5 rfl
      (by decide : ¬ (AVI_MARK <:+: WEBM_MARK)) ⟨[], [], rfl⟩]

theorem riff_case_webp (a b c d : Nat) (tail : List Nat) :
    validate_file_magic_bytes (RIFF_SIG ++ [a, b, c, d] ++ WEBP_MARK ++ tail) none =
      some ("image/webp", ".webp", "photo") := by
  have m1 : matches_sig (RIFF_SIG ++ [a, b, c, d] ++ WEBP_MARK ++ tail)
      [0xff, 0xd8, 0xff] 0 = false :=
    matches_sig_eq_false_of_slice _ _ _ rfl
  have m2 : matches_sig (RIFF_SIG ++ [a, b, c, d] ++ WEBP_MARK ++ tail)
      [0x89, 0x50, 0x4e, 0x47, 0x0d, 0x0a, 0x1a, 0x0a] 0 = false :=
    matches_sig_eq_false_of_slice _ _ _ rfl
  have m3 : matches_sig (RIFF_SIG ++ [a, b, c, d] ++ WEBP_MARK ++ tail)
      [0x47, 0x49, 0x46, 0x38, 0x37, 0x61] 0 = false :=
    matches_sig_eq_false_of_slice _ _ _ rfl
  have m4 : matches_sig (RIFF_SIG ++ [a, b, c, d] ++ WEBP_MARK ++ tail)
      [0x47, 0x49, 0x46, 0x38, 0x39, 0x61] 0 = false :=
    matches_sig_eq_false_of_slice _ _ _ rfl
  have m5 : matches_sig (RIFF_SIG ++ [a, b, c, d] ++ WEBP_MARK ++ tail)
      [0x52, 0x49, 0x46, 0x46] 0 = true :=
    matches_sig_eq_true_of _ _ _ (riff_firstlen a b c d 0x57 0x45 0x42 0x50 tail) rfl
  unfold validate_file_magic_bytes
  rw [if_neg ?hc]
  case hc =>
    rintro (he | hl)
    · have hf : (RIFF_SIG ++ [a, b, c, d] ++ WEBP_MARK ++ tail).isEmpty = false := rfl
      rw [hf] at he; cases he
    · have h12 := riff_firstlen a b c d 0x57 0x45 0x42 0x50 tail
      simp only [List.length_append, RIFF_SIG, WEBP_MARK, List.length_cons,
        List.length_nil] at hl h12
      omega
  unfold FILE_SIGNATURES
  rw [magic_go_cons_none_no_match _ _ _ _ _ _ _ m1,
    magic_go_cons_none_no_match _ _ _ _ _ _ _ m2,
    magic_go_cons_none_no_match _ _ _ _ _ _ _ m3,
    magic_go_cons_none_no_match _ _ _ _ _ _ _ m4,
    magic_go_cons_none_riff_webp _ _ _ _ _ _ _ m5 rfl
      (by decide : ¬ (AVI_MARK <:+: WEBP_MARK))
      (by decide : ¬ (WEBM_MARK <:+: WEBP_MARK)) ⟨[], [], rfl⟩]

/-- C7: a buffer whose leading four bytes are the RIFF signature is
classified as video/avi, video/webm or image/webp according to the marker
occupying bytes 8 to 12; buffers shorter than 12 bytes, and buffers on
which no signature row fires, always fail classification. -/
theorem riff_disambiguation (a b c d : Nat) (tail : List Nat) :
    (validate_file_magic_bytes (RIFF_SIG ++ [a, b, c, d] ++ AVI_MARK ++ tail) none =
       some ("video/avi", ".avi", "video")) ∧
    (validate_file_magic_bytes (RIFF_SIG ++ [a, b, c, d] ++ WEBM_MARK ++ tail) none =
       some ("video/webm", ".webm", "video")) ∧
    (validate_file_magic_bytes (RIFF_SIG ++ [a, b, c, d] ++ WEBP_MARK ++ tail) none =
       some ("image/webp", ".webp", "photo")) ∧
    (∀ content : List Nat, content.length < 12 →
       validate_file_magic_bytes content none = none) ∧
    (∀ content : List Nat,
       (∀ s ∈ FILE_SIGNATURES, matches_sig content s.signature s.offset = false) →
       validate_file_magic_bytes content none = none) := by
  refine ⟨riff_case_avi a b c d tail, riff_case_webm a b c d tail,
    riff_case_webp a b c d tail, ?_, ?_⟩
  · intro content hlt
    unfold validate_file_magic_bytes
    rw [if_pos (Or.inr hlt)]
  · intro content hno
    unfold validate_file_magic_bytes
    split
    · rfl
    · exact magic_go_eq_none_of_no_match content none FILE_SIGNATURES
        (fun s hs _ => hno s hs)

/-- Closed instance of the C7 theorem. -/
theorem riff_disambiguation_witness :
    validate_file_magic_bytes (RIFF_SIG ++ [0, 0, 0, 0] ++ AVI_MARK ++ []) none =
      some ("video/avi", ".avi", "video") ∧
    validate_file_magic_bytes [0x52, 0x49, 0x46] none = none ∧
    validate_file_magic_bytes [1, 2, 3, 4, 5, 6, 7, 8, 9, 10, 11, 12, 13] none = none :=
  ⟨(riff_disambiguation 0 0 0 0 []).1,
   (riff_disambiguation 0 0 0 0 []).2.2.2.1 [0x52, 0x49, 0x46] (by decide),
   (riff_disambiguation 0 0 0 0 []).2.2.2.2 [1, 2, 3, 4, 5, 6, 7, 8, 9, 10, 11, 12, 13]
     (by decide)⟩

/-- C8: file-size validation passes a size exactly at the category ceiling
(photo 50MB, video 500MB, document 50MB, any other detected type 100MB),
fails one byte over the ceiling, and fails a zero-size file. -/
theorem validate_file_size_boundaries (t : String)
    (hv : t ≠ "video") (hp : t ≠ "photo") (hd : t ≠ "document") :
    (validate_file_size MAX_PHOTO_SIZE "photo" = .ok () ∧
      validate_file_size (MAX_PHOTO_SIZE + 1) "photo" =
        .error "File size exceeds maximum allowed size." ∧
      validate_file_size 0 "photo" = .error "File is empty.") ∧
    (validate_file_size MAX_VIDEO_SIZE "video" = .ok () ∧
      validate_file_size (MAX_VIDEO_SIZE + 1) "video" =
        .error "File size exceeds maximum allowed size." ∧
      validate_file_size 0 "video" = .error "File is empty.") ∧
    (validate_file_size MAX_DOCUMENT_SIZE "document" = .ok () ∧
      validate_file_size (MAX_DOCUMENT_SIZE + 1) "document" =
        .error "File size exceeds maximum allowed size." ∧
      validate_file_size 0 "document" = .error "File is empty.") ∧
    (validate_file_size MAX_FILE_SIZE t = .ok () ∧
      validate_file_size (MAX_FILE_SIZE + 1) t =
        .error "File size exceeds maximum allowed size." ∧
      validate_file_size 0 t = .error "File is empty.") := by
  have e1 : (t == "video") = false := beq_eq_false_iff_ne.mpr hv
  have e2 : (t == "photo") = false := beq_eq_false_iff_ne.mpr hp
  have e3 : (t == "document") = false := beq_eq_false_iff_ne.mpr hd
  refine ⟨by decide, by decide, by decide, ?_, ?_, ?_⟩ <;>
    simp [validate_file_size, e1, e2, e3, MAX_FILE_SIZE]

/-- Closed instance of the C8 theorem at the unknown category "other". -/
theorem validate_file_size_boundaries_witness :
    validate_file_size MAX_FILE_SIZE "other" = .ok () ∧
    validate_file_size (MAX_FILE_SIZE + 1) "other" =
      .error "File size exceeds maximum allowed size." ∧
    validate_file_size 0 "other" = .error "File is empty." :=
  (validate_file_size_boundaries "other" (by decide) (by decide) (by decide)).2.2.2

end FileValidation

namespace Validators

/-- C9 counterexample: the input ../../etc/passwd/.. contains the substring
../../etc/passwd, yet sanitizing it returns the bare dot-dot segment .. —
so not every input containing that substring sanitizes to a string without
remaining dot-dot segments. -/
theorem sanitize_filename_counterexample :
    ("../../etc/passwd".toList <:+: "../../etc/passwd/..".toList) ∧
    sanitize_filename (some "../../etc/passwd/..") = some ".." := by
  decide

/-- C9 (amended): every produced output is the final path segment filtered
to the allowed character class and truncated to 255 characters, hence it
contains no path separator and respects the length bound; the round-trip
input ../../etc/passwd itself yields passwd (no dot-dot remaining).  An
input whose own final segment is dots may still yield a bare dot-dot
output, as the counterexample shows. -/
theorem sanitize_filename_amended (f g : String)
    (h : sanitize_filename (some f) = some g) :
    g.toList.length ≤ 255 ∧
    ('/' ∉ g.toList ∧ '\\' ∉ g.toList) ∧
    (∀ c ∈ g.toList, allowed_char c = true) ∧
    sanitize_filename (some "../../etc/passwd") = some "passwd" := by
  have hrt : sanitize_filename (some "../../etc/passwd") = some "passwd" := by decide
  by_cases hf : f = ""
  · rw [hf] at h
    exact absurd h (by simp [sanitize_filename])
  · simp only [sanitize_filename, if_neg hf] at h
    have hg := Option.some.inj h
    subst hg
    have hmem : ∀ c ∈ (String.mk (truncate255 ((final_segment f).filter allowed_char))).toList,
        c ∈ (final_segment f).filter allowed_char := by
      intro c hc
      have hc2 : c ∈ truncate255 ((final_segment f).filter allowed_char) := hc
      unfold truncate255 at hc2
      split at hc2
      · exact List.take_subset _ _ hc2
      · exact hc2
    refine ⟨?_, ⟨?_, ?_⟩, ?_, hrt⟩
    · show (truncate255 ((final_segment f).filter allowed_char)).length ≤ 255
      unfold truncate255
      split
      · exact List.length_take_le _ _
      · next hn => omega
    · intro hmem2
      exact absurd (List.of_mem_filter (hmem _ hmem2)) (by decide)
    · intro hmem2
      exact absurd (List.of_mem_filter (hmem _ hmem2)) (by decide)
    · intro c hc
      exact List.of_mem_filter (hmem c hc)

/-- Closed instance of the amended C9 theorem. -/
theorem sanitize_filename_amended_witness :
    ('/' ∉ "b".toList) ∧ "b".toList.length ≤ 255 ∧
    sanitize_filename (some "../../etc/passwd") = some "passwd" := by
  have h := sanitize_filename_amended "a/b!" "b" (by decide)
  exact ⟨h.2.1.1, h.1, h.2.2.2⟩

end Validators

namespace CookieSecurity

/-- C2 fails on the code (a defect, the middleware docstring promises the
opposite): an attribute the upstream response already set among HttpOnly,
Secure and SameSite is neither re-added (the key is present) nor re-emitted
(the preserve loop skips those three keys), so it is dropped from the
rewritten header; the last conjunct also shows that a preserved attribute
key is re-cased by capitalize rather than passed through verbatim. -/
theorem build_secure_cookie_drops_existing_attributes :
    build_secure_cookie false "id=1; HttpOnly" = some "id=1; SameSite=Lax" ∧
    build_secure_cookie true "id=1; Secure" = some "id=1; HttpOnly; SameSite=Lax" ∧
    build_secure_cookie false "session=abc; SameSite=Strict" = some "session=abc; HttpOnly" ∧
    secure_cookie_headers true ["id=1; Path=/; Max-Age=3600"] =
      ["id=1; HttpOnly; Secure; SameSite=Lax; Path=/; Max-age=3600"] := by
  decide

end CookieSecurity

namespace SecurityLogging

/-- Redaction is insensitive to the values stored under sensitive keys:
detail lists with equal keys that agree on every non-sensitive value
sanitize to the same list. -/
theorem sanitize_details_congr (d1 d2 : List (String × String))
    (h : List.Forall₂ (fun p q : String × String =>
        p.1 = q.1 ∧ (Py.lower p.1 ∉ SENSITIVE_KEYS → p.2 = q.2)) d1 d2) :
    sanitize_details d1 = sanitize_details d2 := by
  induction h with
  | nil => rfl
  | @cons a b l1 l2 hab hl ih =>
    obtain ⟨hk, hv⟩ := hab
    simp only [sanitize_details, List.map_cons] at ih ⊢
    have hhead : (if Py.lower a.1 ∈ SENSITIVE_KEYS then (a.1, "[REDACTED]") else a)
        = (if Py.lower b.1 ∈ SENSITIVE_KEYS then (b.1, "[REDACTED]") else b) := by
      by_cases hs : Py.lower a.1 ∈ SENSITIVE_KEYS
      · rw [if_pos hs, if_pos (hk ▸ hs), hk]
      · rw [if_neg hs, if_neg (hk ▸ hs)]
        exact Prod.ext hk (hv hs)
    rw [hhead, ih]

/-- C6: every sanitized detail entry under a sensitive key carries the fixed
placeholder, and two log calls that differ only in the values stored under
sensitive keys emit identical records (and identical logger channels), so
raw credential material never reaches the emitted record. -/
theorem log_security_event_redaction (et ts lvl : String) (client : ClientInfo)
    (ui : Option String) (d1 d2 : List (String × String))
    (h : List.Forall₂ (fun p q : String × String =>
        p.1 = q.1 ∧ (Py.lower p.1 ∉ SENSITIVE_KEYS → p.2 = q.2)) d1 d2) :
    log_security_event et client ts lvl (some d1) ui =
      log_security_event et client ts lvl (some d2) ui ∧
    (∀ kv ∈ sanitize_details d1, Py.lower kv.1 ∈ SENSITIVE_KEYS → kv.2 = "[REDACTED]") := by
  constructor
  · have hs := sanitize_details_congr d1 d2 h
    have hemp : d1.isEmpty = d2.isEmpty := by cases h <;> rfl
    simp [log_security_event, hs, hemp]
  · intro kv hkv hsens
    unfold sanitize_details at hkv
    obtain ⟨p, hp, hpe⟩ := List.mem_map.mp hkv
    by_cases hps : Py.lower p.1 ∈ SENSITIVE_KEYS
    · rw [if_pos hps] at hpe
      rw [← hpe]
    · rw [if_neg hps] at hpe
      subst hpe
      exact absurd hsens hps

/-- Closed instance of the C6 theorem: two failed-login records differing
only in the password value are identical after redaction. -/
theorem log_security_event_redaction_witness :
    log_security_event "failed_login" ⟨"1.2.3.4", "ua", "POST", "/api/auth/login", none⟩
      "2026-01-01T00:00:00" "WARNING"
      (some [("password", "hunter2"), ("reason", "bad credentials")]) (some "alice") =
    log_security_event "failed_login" ⟨"1.2.3.4", "ua", "POST", "/api/auth/login", none⟩
      "2026-01-01T00:00:00" "WARNING"
      (some [("password", "letmein"), ("reason", "bad credentials")]) (some "alice") := by
  refine (log_security_event_redaction "failed_login" "2026-01-01T00:00:00" "WARNING"
    ⟨"1.2.3.4", "ua", "POST", "/api/auth/login", none⟩ (some "alice")
    [("password", "hunter2"), ("reason", "bad credentials")]
    [("password", "letmein"), ("reason", "bad credentials")] ?_).1
  exact List.Forall₂.cons ⟨rfl, fun hn => absurd (by decide) hn⟩
    (List.Forall₂.cons ⟨rfl, fun _ => rfl⟩ List.Forall₂.nil)

end SecurityLogging

namespace RateLimit

/-- Purging is the identity on a store whose entries are all inside the
window. -/
theorem cleanup_of_fresh (t : Int) (s : List Entry)
    (h : ∀ x ∈ s, t - RATE_LIMIT_WINDOW < x.1) :
    cleanup_old_entries t s = s :=
  List.filter_eq_self.mpr (fun x hx => by simpa using h x hx)

/-- The endpoint count keeps a store whose entries all carry this endpoint
and sit inside the window. -/
theorem count_filter_of_fresh (t : Int) (e : String) (s : List Entry)
    (h : ∀ x ∈ s, x.2 = e ∧ t - RATE_LIMIT_WINDOW < x.1) :
    s.filter (fun x => x.2 == e && decide (t - RATE_LIMIT_WINDOW < x.1)) = s :=
  List.filter_eq_self.mpr (fun x hx => by
    obtain ⟨h1, h2⟩ := h x hx
    simp [h1, h2])

/-- A check on a fresh single-endpoint store below the maximum records the
timestamp and allows. -/
theorem check_allows (t : Int) (e : String) (s : List Entry)
    (hfresh : ∀ x ∈ s, x.2 = e ∧ t - RATE_LIMIT_WINDOW < x.1)
    (hlen : s.length < RATE_LIMIT_MAX_REQUESTS) :
    check_rate_limit t e s = (true, s ++ [(t, e)]) := by
  simp only [check_rate_limit]
  rw [cleanup_of_fresh t s (fun x hx => (hfresh x hx).2),
    count_filter_of_fresh t e s hfresh, if_neg (by omega)]

/-- A check on a fresh single-endpoint store at the maximum rejects and
appends nothing. -/
theorem check_rejects (t : Int) (e : String) (s : List Entry)
    (hfresh : ∀ x ∈ s, x.2 = e ∧ t - RATE_LIMIT_WINDOW < x.1)
    (hlen : RATE_LIMIT_MAX_REQUESTS ≤ s.length) :
    check_rate_limit t e s = (false, s) := by
  simp only [check_rate_limit]
  rw [cleanup_of_fresh t s (fun x hx => (hfresh x hx).2),
    count_filter_of_fresh t e s hfresh, if_pos hlen]

/-- A check whose purged store is below the maximum always allows. -/
theorem check_allows_of_cleanup_short (t : Int) (e : String) (s : List Entry)
    (h : (cleanup_old_entries t s).length < RATE_LIMIT_MAX_REQUESTS) :
    (check_rate_limit t e s).1 = true := by
  simp only [check_rate_limit]
  have hle := List.length_filter_le
    (fun x : Entry => x.2 == e && decide (t - RATE_LIMIT_WINDOW < x.1))
    (cleanup_old_entries t s)
  rw [if_neg (by omega)]

end RateLimit

namespace RateLimit

/-- C5: from an empty store, six requests for the same IP and endpoint
whose sixth still lies inside the trailing 60-second window of the first go
allowed, allowed, allowed, allowed, allowed (the 5th), rejected (the 6th,
which the route dependency turns into HTTP 429 with the retry-after
message), and a request past 60 seconds from the first is re-admitted.
Entries at or beyond the window edge are never counted (they are purged and
filtered by the same strict comparison). -/
theorem rate_limit_sliding_window (e : String) (t1 t2 t3 t4 t5 t6 t7 : Int)
    (h12 : t1 ≤ t2) (h23 : t2 ≤ t3) (h34 : t3 ≤ t4) (h45 : t4 ≤ t5) (h56 : t5 ≤ t6)
    (hwin : t6 - RATE_LIMIT_WINDOW < t1) (h7 : t1 + RATE_LIMIT_WINDOW < t7) :
    (run_rate_limit e [t1, t2, t3, t4, t5, t6, t7] []).1 =
      [true, true, true, true, true, false, true] ∧
    rate_limit_dependency_step t6 e [(t1, e), (t2, e), (t3, e), (t4, e), (t5, e)] =
      (.error (429, "Too many requests. Please try again in 60 seconds."),
       [(t1, e), (t2, e), (t3, e), (t4, e), (t5, e)]) := by
  have s1 : check_rate_limit t1 e [] = (true, [(t1, e)]) :=
    check_allows t1 e [] (by intro x hx; cases hx) (by decide)
  have s2 : check_rate_limit t2 e [(t1, e)] = (true, [(t1, e), (t2, e)]) :=
    check_allows t2 e [(t1, e)]
      (by
        intro x hx
        simp only [List.mem_singleton] at hx
        subst hx
        exact ⟨rfl, by omega⟩)
      (by simp [RATE_LIMIT_MAX_REQUESTS])
  have s3 : check_rate_limit t3 e [(t1, e), (t2, e)] =
      (true, [(t1, e), (t2, e), (t3, e)]) :=
    check_allows t3 e [(t1, e), (t2, e)]
      (by
        intro x hx
        simp only [List.mem_cons, List.mem_singleton, List.not_mem_nil, or_false] at hx
        rcases hx with rfl | rfl <;> exact ⟨rfl, by omega⟩)
      (by simp [RATE_LIMIT_MAX_REQUESTS])
  have s4 : check_rate_limit t4 e [(t1, e), (t2, e), (t3, e)] =
      (true, [(t1, e), (t2, e), (t3, e), (t4, e)]) :=
    check_allows t4 e [(t1, e), (t2, e), (t3, e)]
      (by
        intro x hx
        simp only [List.mem_cons, List.mem_singleton, List.not_mem_nil, or_false] at hx
        rcases hx with rfl | rfl | rfl <;> exact ⟨rfl, by omega⟩)
      (by simp [RATE_LIMIT_MAX_REQUESTS])
  have s5 : check_rate_limit t5 e [(t1, e), (t2, e), (t3, e), (t4, e)] =
      (true, [(t1, e), (t2, e), (t3, e), (t4, e), (t5, e)]) :=
    check_allows t5 e [(t1, e), (t2, e), (t3, e), (t4, e)]
      (by
        intro x hx
        simp only [List.mem_cons, List.mem_singleton, List.not_mem_nil, or_false] at hx
        rcases hx with rfl | rfl | rfl | rfl <;> exact ⟨rfl, by omega⟩)
      (by simp [RATE_LIMIT_MAX_REQUESTS])
  have s6 : check_rate_limit t6 e [(t1, e), (t2, e), (t3, e), (t4, e), (t5, e)] =
      (false, [(t1, e), (t2, e), (t3, e), (t4, e), (t5, e)]) :=
    check_rejects t6 e [(t1, e), (t2, e), (t3, e), (t4, e), (t5, e)]
      (by
        intro x hx
        simp only [List.mem_cons, List.mem_singleton, List.not_mem_nil, or_false] at hx
        rcases hx with rfl | rfl | rfl | rfl | rfl <;> exact ⟨rfl, by omega⟩)
      (by simp [RATE_LIMIT_MAX_REQUESTS])
  have h7s : (cleanup_old_entries t7
      [(t1, e), (t2, e), (t3, e), (t4, e), (t5, e)]).length < RATE_LIMIT_MAX_REQUESTS := by
    unfold cleanup_old_entries
    rw [List.filter_cons_of_neg]
    · have hle := List.length_filter_le
        (fun x : Entry => decide (t7 - RATE_LIMIT_WINDOW < x.1))
        [(t2, e), (t3, e), (t4, e), (t5, e)]
      simp only [List.length_cons, List.length_nil] at hle
      have h5 : RATE_LIMIT_MAX_REQUESTS = 5 := rfl
      omega
    · simp only [decide_eq_true_eq]
      omega
  have s7 : (check_rate_limit t7 e
      [(t1, e), (t2, e), (t3, e), (t4, e), (t5, e)]).1 = true :=
    check_allows_of_cleanup_short t7 e _ h7s
  constructor
  · simp [run_rate_limit, s1, s2, s3, s4, s5, s6, s7]
  · simp [rate_limit_dependency_step, s6]

/-- Closed instance of the C5 theorem. -/
theorem rate_limit_sliding_window_witness :
    (run_rate_limit "login" [0, 1, 2, 3, 4, 5, 66] []).1 =
      [true, true, true, true, true, false, true] ∧
    rate_limit_dependency_step 5 "login"
        [(0, "login"), (1, "login"), (2, "login"), (3, "login"), (4, "login")] =
      (.error (429, "Too many requests. Please try again in 60 seconds."),
       [(0, "login"), (1, "login"), (2, "login"), (3, "login"), (4, "login")]) :=
  rate_limit_sliding_window "login" 0 1 2 3 4 5 66 (by decide) (by decide)
    (by decide) (by decide) (by decide) (by decide) (by decide)

/-- C10: a rejected check records nothing — the store it leaves behind is
exactly the lazily purged store, with no new timestamp appended; and once
every stored timestamp is at least one window old, the next check is
allowed and the store holds only the new timestamp.  Rejected attempts
therefore never extend the lockout. -/
theorem check_rate_limit_reject_frame (t : Int) (e : String) (s : List Entry) :
    ((check_rate_limit t e s).1 = false →
      (check_rate_limit t e s).2 = cleanup_old_entries t s) ∧
    ((∀ x ∈ s, x.1 ≤ t - RATE_LIMIT_WINDOW) →
      check_rate_limit t e s = (true, [(t, e)])) := by
  constructor
  · intro hfst
    by_cases hc : RATE_LIMIT_MAX_REQUESTS ≤
        ((cleanup_old_entries t s).filter
          (fun x => x.2 == e && decide (t - RATE_LIMIT_WINDOW < x.1))).length
    · simp only [check_rate_limit]
      rw [if_pos hc]
    · simp only [check_rate_limit] at hfst
      rw [if_neg hc] at hfst
      simp at hfst
  · intro hold
    have hclean : cleanup_old_entries t s = [] := by
      unfold cleanup_old_entries
      rw [List.filter_eq_nil_iff]
      intro x hx
      simp only [decide_eq_true_eq]
      have := hold x hx
      omega
    simp [check_rate_limit, hclean, RATE_LIMIT_MAX_REQUESTS]

/-- Closed instance of the C10 theorem. -/
theorem check_rate_limit_reject_frame_witness :
    (check_rate_limit 120 "login" [(100, "login"), (101, "login"), (102, "login"),
        (103, "login"), (104, "login")]).2 =
      cleanup_old_entries 120 [(100, "login"), (101, "login"), (102, "login"),
        (103, "login"), (104, "login")] ∧
    check_rate_limit 200 "login" [(100, "login")] = (true, [(200, "login")]) :=
  ⟨(check_rate_limit_reject_frame 120 "login" [(100, "login"), (101, "login"),
      (102, "login"), (103, "login"), (104, "login")]).1 (by decide),
   (check_rate_limit_reject_frame 200 "login" [(100, "login")]).2 (by decide)⟩

end RateLimit

namespace App

/-- A genuinely signed, unexpired token with the right audience decodes to
its claims. -/
theorem jwt_decode_ok (secret audience : String) (c : Claims) (now : Int)
    (hexp : now < c.exp) (haud : c.aud = audience) :
    jwt_decode secret ⟨c, hmac_sign secret c⟩ audience now = .ok c := by
  unfold jwt_decode
  rw [if_neg (by simp), if_neg (show ¬ c.exp ≤ now by omega), if_neg (by simp [haud])]

/-- A token whose MAC is not the signer output for its own claims fails
decoding with InvalidTokenError. -/
theorem jwt_decode_tampered (secret audience : String) (c : Claims) (badmac : Mac)
    (now : Int) (h : badmac ≠ hmac_sign secret c) :
    jwt_decode secret ⟨c, badmac⟩ audience now = .error .invalidToken := by
  unfold jwt_decode
  rw [if_pos h]

/-- C4: a valid, unexpired, genuinely signed token with audience
authenticated and a non-empty sub claim resolves to the full identity
(subject id and email); a token with a tampered signature yields 401
Invalid token, and a request presenting no token at all yields 401 Not
authenticated — never a partial identity. -/
theorem get_current_user_spec (m p sch : String) (csrf : Option String)
    (co : Option Token) (c : Claims) (s : String) (badmac : Mac) (now : Int)
    (hsch : Py.lower sch = "bearer")
    (haud : c.aud = "authenticated") (hexp : now < c.exp)
    (hsub : c.sub = some s) (hs : s ≠ "")
    (htamper : badmac ≠ hmac_sign SUPABASE_JWT_SECRET c) :
    get_current_user ⟨m, p, some (sch, ⟨c, hmac_sign SUPABASE_JWT_SECRET c⟩), csrf, co⟩ now =
      .ok ⟨s, c.email.getD ""⟩ ∧
    get_current_user ⟨m, p, some (sch, ⟨c, badmac⟩), csrf, co⟩ now =
      .error ⟨401, "Invalid token"⟩ ∧
    get_current_user ⟨m, p, none, csrf, none⟩ now = .error ⟨401, "Not authenticated"⟩ := by
  have htok : ∀ tok : Token,
      _get_token_from_request ⟨m, p, some (sch, tok), csrf, co⟩ = some tok := by
    intro tok
    simp [_get_token_from_request, hsch]
  refine ⟨?_, ?_, ?_⟩
  · simp [get_current_user, htok,
      jwt_decode_ok SUPABASE_JWT_SECRET "authenticated" c now hexp haud, hsub, hs]
  · simp [get_current_user, htok,
      jwt_decode_tampered SUPABASE_JWT_SECRET "authenticated" c badmac now htamper]
  · simp [get_current_user, _get_token_from_request]

/-- Closed instance of the C4 theorem. -/
theorem get_current_user_spec_witness :
    get_current_user ⟨"GET", "/x", some ("Bearer",
        ⟨⟨some "u1", some "u1@example.com", "authenticated", 100⟩,
         hmac_sign SUPABASE_JWT_SECRET
           ⟨some "u1", some "u1@example.com", "authenticated", 100⟩⟩),
      none, none⟩ 0 = .ok ⟨"u1", "u1@example.com"⟩ ∧
    get_current_user ⟨"GET", "/x", some ("Bearer",
        ⟨⟨some "u1", some "u1@example.com", "authenticated", 100⟩,
         ⟨"wrong-key", ⟨none, none, "", 0⟩⟩⟩),
      none, none⟩ 0 = .error ⟨401, "Invalid token"⟩ ∧
    get_current_user ⟨"GET", "/x", none, none, none⟩ 0 =
      .error ⟨401, "Not authenticated"⟩ := by
  have h := get_current_user_spec "GET" "/x" "Bearer" none none
    ⟨some "u1", some "u1@example.com", "authenticated", 100⟩ "u1"
    ⟨"wrong-key", ⟨none, none, "", 0⟩⟩ 0
    (by decide) rfl (by decide) rfl (by decide) (by decide)
  exact ⟨h.1, h.2.1, h.2.2⟩

/-- C1 counterexample: a protected-method request to a non-exempt path that
carries neither an Authorization header nor a CSRF header is forwarded to
the handler rather than rejected with 403 — the middleware only enforces
CSRF on requests that present a bearer Authorization header. -/
theorem csrf_dispatch_counterexample :
    csrf_dispatch ⟨"POST", "/api/pages", none, none, none⟩ 0 = .ok () := by
  decide

/-- C1 (amended): for a protected method on a non-exempt path, a request
presenting a bearer Authorization header is rejected 403 exactly when the
X-CSRF-Token header is missing (or empty) or the bearer token fails
verification; a request without an Authorization header passes through to
the handler unconditionally. -/
theorem csrf_dispatch_amended (m p sch : String) (tok : Token)
    (csrf : Option String) (co : Option Token) (now : Int)
    (hm : m ∈ CSRF_PROTECTED_METHODS) (hp : p ∉ PUBLIC_ENDPOINTS)
    (hsch : Py.lower sch = "bearer") :
    (csrf_dispatch ⟨m, p, some (sch, tok), csrf, co⟩ now =
        .error ⟨403, "CSRF token missing or invalid"⟩ ↔
      (pyTruthy csrf = false ∨
        (jwt_decode SUPABASE_JWT_SECRET tok "authenticated" now).toBool = false)) ∧
    csrf_dispatch ⟨m, p, none, csrf, co⟩ now = .ok () := by
  refine ⟨?_, ?_⟩
  · cases hpt : pyTruthy csrf <;>
      cases hjt : (jwt_decode SUPABASE_JWT_SECRET tok "authenticated" now).toBool <;>
      simp [csrf_dispatch, validate_csrf_token, get_csrf_token_from_request,
        hsch, hm, hp, hpt, hjt]
  · simp [csrf_dispatch, hm, hp]

/-- Closed instance of the amended C1 theorem. -/
theorem csrf_dispatch_amended_witness :
    csrf_dispatch ⟨"POST", "/api/pages", some ("Bearer",
        ⟨⟨some "u1", none, "authenticated", 100⟩,
         hmac_sign SUPABASE_JWT_SECRET ⟨some "u1", none, "authenticated", 100⟩⟩),
      none, none⟩ 0 = .error ⟨403, "CSRF token missing or invalid"⟩ ∧
    csrf_dispatch ⟨"POST", "/api/pages", none, some "t", none⟩ 0 = .ok () := by
  have h1 := csrf_dispatch_amended "POST" "/api/pages" "Bearer"
    ⟨⟨some "u1", none, "authenticated", 100⟩,
     hmac_sign SUPABASE_JWT_SECRET ⟨some "u1", none, "authenticated", 100⟩⟩
    none none 0 (by decide) (by decide) (by decide)
  have h2 := csrf_dispatch_amended "POST" "/api/pages" "Bearer"
    ⟨⟨some "u1", none, "authenticated", 100⟩,
     hmac_sign SUPABASE_JWT_SECRET ⟨some "u1", none, "authenticated", 100⟩⟩
    (some "t") none 0 (by decide) (by decide) (by decide)
  exact ⟨h1.1.mpr (Or.inl rfl), h2.2⟩

end App
